import Mathlib

/-!
Shallow embedding of the `wepoll2` Poller core (`src/lib.rs`, `src/ffi.rs`).

Machine integers (`u32`, `usize`, `u64`) are modelled as `Nat`; the bitwise
operations used by the source (`&`, `|`) never overflow their width, and the
one place where width matters (`dur2timeout`'s checked `u64`/`u32` arithmetic)
carries the bound explicitly.  Kernel calls (`ProcessSocketNotifications`,
`GetQueuedCompletionStatusEx`, `PostQueuedCompletionStatus`,
`NtAssociateWaitCompletionPacket`, `WSAGetQOSByName`) are external to the
repository; each is modelled by an oracle value describing the response the
kernel gives, and each Poller operation additionally returns the list of
kernel actions it performed, so that ordering claims can be stated.
-/

namespace Wepoll

/-! ## Windows constants (values from the Windows SDK, as imported by the source) -/

def ERROR_SUCCESS : Nat := 0
def WAIT_TIMEOUT : Nat := 258
def WAIT_IO_COMPLETION : Nat := 192
def INFINITE : Nat := 4294967295
def ERROR_INVALID_PARAMETER : Nat := 87
def WSAENOTSOCK : Nat := 10038

def SOCK_NOTIFY_EVENT_IN : Nat := 1
def SOCK_NOTIFY_EVENT_OUT : Nat := 2
def SOCK_NOTIFY_EVENT_HANGUP : Nat := 4
def SOCK_NOTIFY_EVENT_ERR : Nat := 64
def SOCK_NOTIFY_EVENT_REMOVE : Nat := 128

def SOCK_NOTIFY_REGISTER_EVENT_NONE : Nat := 0
def SOCK_NOTIFY_REGISTER_EVENT_IN : Nat := 1
def SOCK_NOTIFY_REGISTER_EVENT_OUT : Nat := 2
def SOCK_NOTIFY_REGISTER_EVENT_HANGUP : Nat := 4

def SOCK_NOTIFY_OP_ENABLE : Nat := 1
def SOCK_NOTIFY_OP_DISABLE : Nat := 2
def SOCK_NOTIFY_OP_REMOVE : Nat := 4

def SOCK_NOTIFY_TRIGGER_ONESHOT : Nat := 1
def SOCK_NOTIFY_TRIGGER_PERSISTENT : Nat := 2
def SOCK_NOTIFY_TRIGGER_LEVEL : Nat := 4
def SOCK_NOTIFY_TRIGGER_EDGE : Nat := 8

/-! ## `Event`, `PollMode` (src/lib.rs) -/

/-- Source `PollMode` enum from src/lib.rs. -/
inductive PollMode where
  | Oneshot
  | Level
  | Edge
  | EdgeOneshot
deriving DecidableEq, Repr

/-- Source `Event { events: u32, key: usize }` from src/lib.rs. -/
structure Event where
  events : Nat
  key : Nat
deriving DecidableEq, Repr

/-- Source `Event::none(key)`. -/
def Event.none (key : Nat) : Event := ⟨0, key⟩

/-- Source `Event::get_event`: `(self.events & e) != 0`. -/
def Event.get_event (self : Event) (e : Nat) : Bool := self.events &&& e != 0

/-- Source `Event::is_readable`. -/
def Event.is_readable (self : Event) : Bool := self.get_event SOCK_NOTIFY_EVENT_IN

/-- Source `Event::is_writable`. -/
def Event.is_writable (self : Event) : Bool := self.get_event SOCK_NOTIFY_EVENT_OUT

/-- Source `Event::is_hangup`. -/
def Event.is_hangup (self : Event) : Bool := self.get_event SOCK_NOTIFY_EVENT_HANGUP

/-- Source `Event::is_error`. -/
def Event.is_error (self : Event) : Bool := self.get_event SOCK_NOTIFY_EVENT_ERR

/-- Source `OVERLAPPED_ENTRY` with the three fields the source reads/writes.
`lpOverlapped` is a raw pointer, modelled as its address. -/
structure OverlappedEntry where
  dwNumberOfBytesTransferred : Nat
  lpCompletionKey : Nat
  lpOverlapped : Nat
deriving DecidableEq, Repr

/-- Source `impl From<OVERLAPPED_ENTRY> for Event` (src/lib.rs). -/
def Event.ofEntry (value : OverlappedEntry) : Event :=
  ⟨value.dwNumberOfBytesTransferred, value.lpCompletionKey⟩

/-- Source `interest_to_filter` (src/lib.rs). -/
def interest_to_filter (interest : Event) : Nat :=
  let filter := SOCK_NOTIFY_REGISTER_EVENT_NONE
  let filter := if interest.is_readable then filter ||| SOCK_NOTIFY_REGISTER_EVENT_IN else filter
  let filter := if interest.is_writable then filter ||| SOCK_NOTIFY_REGISTER_EVENT_OUT else filter
  if interest.is_hangup then filter ||| SOCK_NOTIFY_REGISTER_EVENT_HANGUP else filter

/-- Source `interest_to_events` (src/lib.rs). -/
def interest_to_events (interest : Event) : Nat :=
  let events := 0
  let events := if interest.is_readable then events ||| SOCK_NOTIFY_EVENT_IN else events
  let events := if interest.is_writable then events ||| SOCK_NOTIFY_EVENT_OUT else events
  let events := if interest.is_hangup then events ||| SOCK_NOTIFY_EVENT_HANGUP else events
  if interest.is_error then events ||| SOCK_NOTIFY_EVENT_ERR else events

/-- Source `mode_to_flags` (src/lib.rs). -/
def mode_to_flags (mode : PollMode) : Nat :=
  match mode with
  | PollMode.Oneshot => SOCK_NOTIFY_TRIGGER_ONESHOT ||| SOCK_NOTIFY_TRIGGER_LEVEL
  | PollMode.Level => SOCK_NOTIFY_TRIGGER_PERSISTENT ||| SOCK_NOTIFY_TRIGGER_LEVEL
  | PollMode.Edge => SOCK_NOTIFY_TRIGGER_PERSISTENT ||| SOCK_NOTIFY_TRIGGER_EDGE
  | PollMode.EdgeOneshot => SOCK_NOTIFY_TRIGGER_ONESHOT ||| SOCK_NOTIFY_TRIGGER_EDGE

/-- Source `SOCK_NOTIFY_REGISTRATION` with the fields the source writes.
`registrationResult` is an output written by the kernel, so it lives in the
kernel-response oracles below rather than in this record. -/
structure SockNotifyRegistration where
  socket : Nat
  completionKey : Nat
  eventFilter : Nat
  operation : Nat
  triggerFlags : Nat
deriving DecidableEq, Repr

/-- Source `create_registration` (src/lib.rs). -/
def create_registration (socket : Nat) (interest : Event) (mode : PollMode)
    (enable : Bool) : SockNotifyRegistration :=
  let filter := interest_to_filter interest
  { socket := socket
    completionKey := interest.key
    eventFilter := filter
    operation :=
      if enable then
        if filter = SOCK_NOTIFY_REGISTER_EVENT_NONE then SOCK_NOTIFY_OP_DISABLE
        else SOCK_NOTIFY_OP_ENABLE
      else SOCK_NOTIFY_OP_REMOVE
    triggerFlags := mode_to_flags mode }

/-! ## Kernel-response oracles

The kernel is outside the repository; its replies are inputs to the model.
-/

/-- Response to `ProcessSocketNotifications` issued with a registration and
zero dequeue (`update_source`): the call-level status and the
`registrationResult` the kernel wrote into the registration. -/
structure RegResponse where
  res : Nat
  registrationResult : Nat
deriving DecidableEq, Repr

/-- Response to the combined "register + dequeue 1" call opening
`update_and_wait_for_remove`: call-level status, written
`registrationResult`, number of entries dequeued (0 or 1) and the entry
(meaningful when `received = 1`). -/
structure DrainFirstResponse where
  res : Nat
  registrationResult : Nat
  received : Nat
  entry : OverlappedEntry
deriving DecidableEq, Repr

/-- Response to a dequeue-only `ProcessSocketNotifications` call inside the
drain loop: call-level status and the dequeued entry (meaningful when the
status is `ERROR_SUCCESS`, where the source asserts `received = 1`). -/
structure DequeueResponse where
  res : Nat
  entry : OverlappedEntry
deriving DecidableEq, Repr

/-- Response to `GetQueuedCompletionStatusEx` in `Poller::wait`: the status
the dequeue call reports, the dequeued-entry count and the thread last-error
read on the failure branch. -/
structure GQCSResponse where
  res : Nat
  received : Nat
  lastError : Nat
deriving DecidableEq, Repr

/-- Errors of the Poller operations: `io::ErrorKind::NotFound`,
`io::ErrorKind::AlreadyExists`, or a raw OS error code
(`io::Error::from_raw_os_error` / `last_os_error`). -/
inductive PollError where
  | notFound
  | alreadyExists
  | osError (code : Nat)
deriving DecidableEq, Repr

/-- Source `Poller::update_source` (src/lib.rs): issue one registration with zero
dequeue; the per-registration result takes precedence when the call itself
succeeded. -/
def update_source (resp : RegResponse) : Except Nat Unit :=
  if resp.res = ERROR_SUCCESS then
    if resp.registrationResult = ERROR_SUCCESS then Except.ok ()
    else Except.error resp.registrationResult
  else Except.error resp.res

/-- The dequeue loop at the bottom of `Poller::update_and_wait_for_remove`
(src/lib.rs): repeatedly dequeue one completion; on `ERROR_SUCCESS` examine
the entry (same key with the REMOVE bit ⇒ done, same key without it ⇒
discard, different key ⇒ repost verbatim); on `WAIT_TIMEOUT` keep looping;
on anything else fail.  `posted` accumulates the entries handed to
`post_raw` so far; the responses list is the fuel — `Option.none` means the
supplied responses ran out before the loop returned. -/
def drain_loop (key : Nat) :
    List DequeueResponse → List OverlappedEntry →
    Option (Except Nat Unit × List OverlappedEntry)
  | [], _ => Option.none
  | r :: rest, posted =>
    if r.res = ERROR_SUCCESS then
      if r.entry.lpCompletionKey = key then
        if r.entry.dwNumberOfBytesTransferred &&& SOCK_NOTIFY_EVENT_REMOVE ≠ 0 then
          Option.some (Except.ok (), posted)
        else drain_loop key rest posted
      else drain_loop key rest (posted ++ [r.entry])
    else if r.res = WAIT_TIMEOUT then drain_loop key rest posted
    else Option.some (Except.error r.res, posted)

/-- Source `Poller::update_and_wait_for_remove` (src/lib.rs).  Returns the
operation's result together with the list of entries reposted via
`post_raw`, or `Option.none` when the supplied kernel responses ran out
before the wanted REMOVE event arrived. -/
def update_and_wait_for_remove (key : Nat) (first : DrainFirstResponse)
    (rest : List DequeueResponse) :
    Option (Except Nat Unit × List OverlappedEntry) :=
  if first.res = ERROR_SUCCESS ∨ first.res = WAIT_TIMEOUT then
    if first.registrationResult ≠ ERROR_SUCCESS then
      Option.some (Except.error first.registrationResult,
        if first.received = 1 then [first.entry] else [])
    else
      if first.received = 1 then
        if first.entry.lpCompletionKey = key then
          if first.entry.dwNumberOfBytesTransferred &&& SOCK_NOTIFY_EVENT_REMOVE ≠ 0 then
            Option.some (Except.ok (), [])
          else drain_loop key rest []
        else drain_loop key rest [first.entry]
      else drain_loop key rest []
  else Option.some (Except.error first.res, [])

/-! ## Registry maps

`sources : BTreeMap<RawSocket, usize>` and
`waitables : BTreeMap<RawHandle, WaitableAttr>` are modelled as association
lists; a `BTreeMap` additionally keeps its keys distinct, which theorems
assume through a `Nodup` hypothesis where it matters. -/

/-- Source `BTreeMap::get`. -/
def lookupA {α : Type} : List (Nat × α) → Nat → Option α
  | [], _ => Option.none
  | (k', v) :: rest, k => if k' = k then Option.some v else lookupA rest k

/-- Source `BTreeMap::contains_key`. -/
def containsA {α : Type} (m : List (Nat × α)) (k : Nat) : Bool :=
  (lookupA m k).isSome

/-- Source `BTreeMap::insert` (replace an existing binding, else append). -/
def insertA {α : Type} : List (Nat × α) → Nat → α → List (Nat × α)
  | [], k, v => [(k, v)]
  | (k', v') :: rest, k, v =>
    if k' = k then (k, v) :: rest else (k', v') :: insertA rest k v

/-- Source `BTreeMap::remove`: the map without the binding, and the removed value. -/
def removeA {α : Type} : List (Nat × α) → Nat → List (Nat × α) × Option α
  | [], _ => ([], Option.none)
  | (k', v) :: rest, k =>
    if k' = k then (rest, Option.some v)
    else
      let res := removeA rest k
      ((k', v) :: res.1, res.2)

/-- Source `WaitableAttr { key, packet }` (src/lib.rs); the owned
`WaitCompletionPacket` is modelled by its handle. -/
structure WaitableAttr where
  key : Nat
  packet : Nat
deriving DecidableEq, Repr

/-- The two registry maps of `Poller` (the port handle itself plays no role
in the registry claims). -/
structure PollerState where
  sources : List (Nat × Nat)
  waitables : List (Nat × WaitableAttr)
deriving DecidableEq, Repr

/-- Kernel actions a Poller operation performs, in order. -/
inductive KAction where
  | updateSource (reg : SockNotifyRegistration)
  | drainRemove (reg : SockNotifyRegistration) (key : Nat)
  | postPacket (transferred : Nat) (key : Nat) (overlapped : Nat)
  | associate (packet : Nat) (handle : Nat) (key : Nat) (info : Nat)
  | cancelPacket (packet : Nat)
deriving DecidableEq, Repr

/-! ## Poller operations (src/lib.rs)

Each operation returns its `io::Result`, the registry state after the call,
and the ordered kernel actions it issued.  Operations that run the drain
loop return `Option.none` when the drain's kernel responses ran out. -/

/-- Source `Poller::add` (src/lib.rs). -/
def Poller.add (st : PollerState) (socket : Nat) (interest : Event)
    (mode : PollMode) (resp : RegResponse) :
    Except PollError Unit × PollerState × List KAction :=
  if containsA st.sources socket then (Except.error PollError.alreadyExists, st, [])
  else
    let st' : PollerState := { st with sources := insertA st.sources socket interest.key }
    let info := create_registration socket interest mode true
    ((update_source resp).mapError PollError.osError, st', [KAction.updateSource info])

/-- Source `Poller::modify` (src/lib.rs). -/
def Poller.modify (st : PollerState) (socket : Nat) (interest : Event)
    (mode : PollMode) (drainFirst : DrainFirstResponse)
    (drainRest : List DequeueResponse) (resp : RegResponse) :
    Option (Except PollError Unit × PollerState × List KAction) :=
  match lookupA st.sources socket with
  | Option.none => Option.some (Except.error PollError.notFound, st, [])
  | Option.some oldkey =>
    if oldkey ≠ interest.key then
      let info := create_registration socket (Event.none oldkey) PollMode.Oneshot false
      match update_and_wait_for_remove oldkey drainFirst drainRest with
      | Option.none => Option.none
      | Option.some (Except.error c, _) =>
        Option.some (Except.error (PollError.osError c), st, [KAction.drainRemove info oldkey])
      | Option.some (Except.ok _, _) =>
        let info2 := create_registration socket interest mode true
        Option.some ((update_source resp).mapError PollError.osError, st,
          [KAction.drainRemove info oldkey, KAction.updateSource info2])
    else
      let info2 := create_registration socket interest mode true
      Option.some ((update_source resp).mapError PollError.osError, st,
        [KAction.updateSource info2])

/-- Source `Poller::delete` (src/lib.rs). -/
def Poller.delete (st : PollerState) (socket : Nat)
    (drainFirst : DrainFirstResponse) (drainRest : List DequeueResponse) :
    Option (Except PollError Unit × PollerState × List KAction) :=
  let rem := removeA st.sources socket
  match rem.2 with
  | Option.none => Option.some (Except.error PollError.notFound, st, [])
  | Option.some key =>
    let st' : PollerState := { st with sources := rem.1 }
    let info := create_registration socket (Event.none key) PollMode.Oneshot false
    match update_and_wait_for_remove key drainFirst drainRest with
    | Option.none => Option.none
    | Option.some (r, _) =>
      Option.some (r.mapError PollError.osError, st', [KAction.drainRemove info key])

/-- Source `Poller::add_waitable` (src/lib.rs).  `newPacket` is the oracle for
`WaitCompletionPacket::new` (a fresh packet handle or an error);
`assocRes` the oracle for `packet.associate`. -/
def Poller.add_waitable (st : PollerState) (handle : Nat) (interest : Event)
    (newPacket : Except Nat Nat) (assocRes : Except Nat Unit) :
    Except PollError Unit × PollerState × List KAction :=
  if containsA st.waitables handle then (Except.error PollError.alreadyExists, st, [])
  else
    match newPacket with
    | Except.error c => (Except.error (PollError.osError c), st, [])
    | Except.ok pid =>
      let act := KAction.associate pid handle interest.key (interest_to_events interest)
      match assocRes with
      | Except.error c => (Except.error (PollError.osError c), st, [act])
      | Except.ok _ =>
        (Except.ok (),
         { st with waitables := insertA st.waitables handle ⟨interest.key, pid⟩ }, [act])

/-- Source `Poller::modify_waitable` (src/lib.rs).  `cancelRes` is the oracle for
`packet.cancel()` (`Ok(true)` reusable, `Ok(false)` still in use, `Err`),
`newPacket` for the replacement `WaitCompletionPacket::new` used when the
old packet could not be reused, `assocRes` for the re-association. -/
def Poller.modify_waitable (st : PollerState) (waitable : Nat) (interest : Event)
    (cancelRes : Except Nat Bool) (newPacket : Except Nat Nat)
    (assocRes : Except Nat Unit) :
    Except PollError Unit × PollerState × List KAction :=
  match lookupA st.waitables waitable with
  | Option.none => (Except.error PollError.notFound, st, [])
  | Option.some attr =>
    match cancelRes with
    | Except.error c =>
      (Except.error (PollError.osError c), st, [KAction.cancelPacket attr.packet])
    | Except.ok cancelled =>
      match (if cancelled then Except.ok attr.packet else newPacket : Except Nat Nat) with
      | Except.error c =>
        (Except.error (PollError.osError c), st, [KAction.cancelPacket attr.packet])
      | Except.ok pid =>
        let st' : PollerState :=
          { st with waitables := insertA st.waitables waitable ⟨attr.key, pid⟩ }
        let acts := [KAction.cancelPacket attr.packet,
          KAction.associate pid waitable attr.key (interest_to_events interest)]
        match assocRes with
        | Except.error c => (Except.error (PollError.osError c), st', acts)
        | Except.ok _ => (Except.ok (), st', acts)

/-- Source `Poller::delete_waitable` (src/lib.rs). -/
def Poller.delete_waitable (st : PollerState) (waitable : Nat)
    (cancelRes : Except Nat Bool) :
    Except PollError Unit × PollerState × List KAction :=
  let rem := removeA st.waitables waitable
  match rem.2 with
  | Option.none => (Except.error PollError.notFound, st, [])
  | Option.some attr =>
    let st' : PollerState := { st with waitables := rem.1 }
    match cancelRes with
    | Except.error c =>
      (Except.error (PollError.osError c), st', [KAction.cancelPacket attr.packet])
    | Except.ok _ => (Except.ok (), st', [KAction.cancelPacket attr.packet])

/-! ## `wait`, `post` and the timeout conversion (src/lib.rs) -/

/-- Source `std::time::Duration`: seconds (`u64`) and sub-second nanoseconds
(`< 10^9`). -/
structure Duration where
  secs : Nat
  nanos : Nat
deriving DecidableEq, Repr

/-- Source `u64::checked_mul`. -/
def u64_checked_mul (a b : Nat) : Option Nat :=
  if a * b < 2 ^ 64 then Option.some (a * b) else Option.none

/-- Source `u64::checked_add`. -/
def u64_checked_add (a b : Nat) : Option Nat :=
  if a + b < 2 ^ 64 then Option.some (a + b) else Option.none

/-- Source `u32::try_from(u64)` as an `Option`. -/
def u32_try_from (x : Nat) : Option Nat :=
  if x < 2 ^ 32 then Option.some x else Option.none

/-- Source `dur2timeout` (src/lib.rs). -/
def dur2timeout (dur : Duration) : Nat :=
  (((((u64_checked_mul dur.secs 1000).bind
      (fun ms => u64_checked_add ms (dur.nanos / 1000000))).bind
      (fun ms => if dur.nanos % 1000000 > 0 then u64_checked_add ms 1 else Option.some ms)).bind
      (fun x => u32_try_from x)).getD INFINITE)

/-- The `timeout.map_or(INFINITE, dur2timeout)` step of `Poller::wait`. -/
def wait_timeout_arg : Option Duration → Nat
  | Option.none => INFINITE
  | Option.some d => dur2timeout d

/-- Source `Poller::wait` (src/lib.rs): the result, paired with the millisecond
timeout passed to the kernel dequeue call. -/
def Poller.wait (timeout : Option Duration) (alertable : Bool)
    (resp : GQCSResponse) : Except PollError Nat × Nat :=
  let t := wait_timeout_arg timeout
  let _ := alertable
  (if resp.res = ERROR_SUCCESS then Except.ok resp.received
   else if resp.res = WAIT_TIMEOUT ∨ resp.res = WAIT_IO_COMPLETION then Except.ok 0
   else Except.error (PollError.osError resp.lastError), t)

/-- Source `Poller::post_raw` (src/lib.rs): `PostQueuedCompletionStatus` places one
entry with the given triple into the port's queue. -/
def Poller.post_raw (queue : List OverlappedEntry) (transferred : Nat)
    (key : Nat) (overlapped : Nat) : List OverlappedEntry :=
  queue ++ [{ dwNumberOfBytesTransferred := transferred,
              lpCompletionKey := key, lpOverlapped := overlapped }]

/-- Source `Poller::post` (src/lib.rs): `post_raw(interest_to_events(&event),
event.key, null_mut())`. -/
def Poller.post (queue : List OverlappedEntry) (event : Event) :
    List OverlappedEntry :=
  Poller.post_raw queue (interest_to_events event) event.key 0

/-! ## ABI shim (src/ffi.rs) -/

def EPOLLIN : Nat := 1
def EPOLLOUT : Nat := 2
def EPOLLHUP : Nat := 4
def EPOLLERR : Nat := 64
def EPOLLET : Nat := 256
def EPOLLONESHOT : Nat := 512
def EPOLL_CTL_ADD : Nat := 1
def EPOLL_CTL_MOD : Nat := 2
def EPOLL_CTL_DEL : Nat := 3

/-- Outcome of the `WSAGetQOSByName` probe in `is_socket` (src/ffi.rs): the
call's return value and the thread's last WSA error after it. -/
structure WSAProbe where
  res : Nat
  lastError : Nat
deriving DecidableEq, Repr

/-- Source `is_socket` (src/ffi.rs):
`res != 0 || (WSAGetLastError() != WSAENOTSOCK)`. -/
def is_socket (probe : WSAProbe) : Bool :=
  probe.res != 0 || probe.lastError != WSAENOTSOCK

/-- Source `interest_mode` (src/ffi.rs): validate the event pointer (null or
misaligned modelled as `Option.none`) and decode `PollMode` from the
`EPOLLET`/`EPOLLONESHOT` bits. -/
def interest_mode (event : Option Event) : Except Nat (Event × PollMode) :=
  match event with
  | Option.none => Except.error ERROR_INVALID_PARAMETER
  | Option.some e =>
    let events := e.events
    let mode :=
      match (events &&& EPOLLET != 0 : Bool), (events &&& EPOLLONESHOT != 0 : Bool) with
      | false, false => PollMode.Level
      | false, true => PollMode.Oneshot
      | true, false => PollMode.Edge
      | true, true => PollMode.EdgeOneshot
    Except.ok (e, mode)

/-- The Poller method `epoll_ctl` resolves to, before executing it. -/
inductive CtlAction where
  | sockAdd (socket : Nat) (interest : Event) (mode : PollMode)
  | sockModify (socket : Nat) (interest : Event) (mode : PollMode)
  | sockDelete (socket : Nat)
  | waitAdd (handle : Nat) (interest : Event)
  | waitModify (handle : Nat) (interest : Event)
  | waitDelete (handle : Nat)
deriving DecidableEq, Repr

/-- Which of the two dispatch branches `epoll_ctl` takes. -/
inductive CtlPath where
  | socketPath
  | waitablePath
deriving DecidableEq, Repr

/-- Source `epoll_ctl_socket` (src/ffi.rs), resolved to the Poller call it makes. -/
def epoll_ctl_socket (op : Nat) (socket : Nat) (event : Option Event) :
    Except Nat CtlAction :=
  if op = EPOLL_CTL_ADD then
    (interest_mode event).map (fun im => CtlAction.sockAdd socket im.1 im.2)
  else if op = EPOLL_CTL_MOD then
    (interest_mode event).map (fun im => CtlAction.sockModify socket im.1 im.2)
  else if op = EPOLL_CTL_DEL then Except.ok (CtlAction.sockDelete socket)
  else Except.error ERROR_INVALID_PARAMETER

/-- Source `epoll_ctl_waitable` (src/ffi.rs), resolved to the Poller call it
makes (`check_pointer` failure modelled as `Option.none`). -/
def epoll_ctl_waitable (op : Nat) (handle : Nat) (event : Option Event) :
    Except Nat CtlAction :=
  if op = EPOLL_CTL_ADD then
    match event with
    | Option.none => Except.error ERROR_INVALID_PARAMETER
    | Option.some e => Except.ok (CtlAction.waitAdd handle e)
  else if op = EPOLL_CTL_MOD then
    match event with
    | Option.none => Except.error ERROR_INVALID_PARAMETER
    | Option.some e => Except.ok (CtlAction.waitModify handle e)
  else if op = EPOLL_CTL_DEL then Except.ok (CtlAction.waitDelete handle)
  else Except.error ERROR_INVALID_PARAMETER

/-- Source `epoll_ctl` (src/ffi.rs): classify the handle with the `is_socket`
probe and dispatch to the socket or the waitable path.  Returns the branch
taken and the Poller call resolved inside it. -/
def epoll_ctl (probe : WSAProbe) (op : Nat) (handle : Nat)
    (event : Option Event) : CtlPath × Except Nat CtlAction :=
  if is_socket probe then (CtlPath.socketPath, epoll_ctl_socket op handle event)
  else (CtlPath.waitablePath, epoll_ctl_waitable op handle event)

/-! ## The remove-and-drain protocol as the specification words it (§4.4)

Used only to compare against `update_and_wait_for_remove`; written from the
spec's step list, with the entry returned by the combined call fed to the
same examine-one-entry rule as the loop's entries. -/

/-- Spec §4.4 step 3/4 loop: dequeue single completions; key ≠ target ⇒
repost the exact `(bytesTransferred, completionKey, overlapped)` triple and
loop; key = target with the REMOVE bit ⇒ success; key = target without it ⇒
discard and loop; TIMEOUT ⇒ keep waiting; any other status ⇒ surface it. -/
def spec_drain_until_remove (key : Nat) :
    List DequeueResponse → List OverlappedEntry →
    Option (Except Nat Unit × List OverlappedEntry)
  | [], _ => Option.none
  | r :: rest, reposted =>
    if r.res = WAIT_TIMEOUT then spec_drain_until_remove key rest reposted
    else if r.res ≠ ERROR_SUCCESS then Option.some (Except.error r.res, reposted)
    else if r.entry.lpCompletionKey ≠ key then
      spec_drain_until_remove key rest
        (reposted ++ [{ dwNumberOfBytesTransferred := r.entry.dwNumberOfBytesTransferred,
                        lpCompletionKey := r.entry.lpCompletionKey,
                        lpOverlapped := r.entry.lpOverlapped }])
    else if r.entry.dwNumberOfBytesTransferred &&& SOCK_NOTIFY_EVENT_REMOVE = 0 then
      spec_drain_until_remove key rest reposted
    else Option.some (Except.ok (), reposted)

/-- Spec §4.4 steps 1–2, then the loop: submit the REMOVE via the combined
"register + dequeue 1" call; a call-level status outside
{SUCCESS, TIMEOUT} is surfaced; a non-success per-registration status is
surfaced after reposting any entry returned alongside it; otherwise the
returned entry (if any) is examined by the same rule as every later
dequeued entry. -/
def spec_remove_and_drain (key : Nat) (first : DrainFirstResponse)
    (rest : List DequeueResponse) :
    Option (Except Nat Unit × List OverlappedEntry) :=
  if first.res ≠ ERROR_SUCCESS ∧ first.res ≠ WAIT_TIMEOUT then
    Option.some (Except.error first.res, [])
  else if first.registrationResult ≠ ERROR_SUCCESS then
    Option.some (Except.error first.registrationResult,
      if first.received = 1 then [first.entry] else [])
  else
    spec_drain_until_remove key
      ((if first.received = 1 then [{ res := ERROR_SUCCESS, entry := first.entry }] else []) ++ rest)
      []

/-! ## Helper lemmas -/

theorem and_seven_lt (n : Nat) : n &&& 7 < 8 := Nat.and_lt_two_pow n (n := 3) (by norm_num)

theorem and_one_of_and_seven (n : Nat) : n &&& 1 = n &&& 7 &&& 1 := by
  rw [Nat.and_assoc]; norm_num

theorem and_two_of_and_seven (n : Nat) : n &&& 2 = n &&& 7 &&& 2 := by
  rw [Nat.and_assoc]; congr 1

theorem and_four_of_and_seven (n : Nat) : n &&& 4 = n &&& 7 &&& 4 := by
  rw [Nat.and_assoc]; congr 1

/-- Source `interest_to_filter` keeps exactly the IN/OUT/HANGUP bits of the
interest mask. -/
theorem interest_to_filter_eq (e : Event) : interest_to_filter e = e.events &&& 7 := by
  have hlt := and_seven_lt e.events
  simp only [interest_to_filter, Event.is_readable, Event.is_writable, Event.is_hangup,
    Event.get_event, SOCK_NOTIFY_EVENT_IN, SOCK_NOTIFY_EVENT_OUT, SOCK_NOTIFY_EVENT_HANGUP,
    SOCK_NOTIFY_REGISTER_EVENT_NONE, SOCK_NOTIFY_REGISTER_EVENT_IN,
    SOCK_NOTIFY_REGISTER_EVENT_OUT, SOCK_NOTIFY_REGISTER_EVENT_HANGUP]
  rw [and_one_of_and_seven, and_two_of_and_seven, and_four_of_and_seven]
  generalize e.events &&& 7 = m at hlt ⊢
  interval_cases m <;> decide

theorem lookupA_insertA_self {α : Type} (m : List (Nat × α)) (k : Nat) (v : α) :
    lookupA (insertA m k v) k = Option.some v := by
  induction m with
  | nil => simp [insertA, lookupA]
  | cons hd tl ih =>
    rcases hd with ⟨k', v'⟩
    by_cases h : k' = k
    · simp [insertA, lookupA, h]
    · simp [insertA, lookupA, h, ih]

theorem lookupA_eq_none_of_not_mem {α : Type} (m : List (Nat × α)) (k : Nat)
    (h : ¬ k ∈ m.map Prod.fst) : lookupA m k = Option.none := by
  induction m with
  | nil => rfl
  | cons hd tl ih =>
    rcases hd with ⟨k', v'⟩
    simp only [List.map_cons, List.mem_cons, not_or] at h
    have h1 : k' ≠ k := fun e => h.1 e.symm
    simp only [lookupA, if_neg h1]
    exact ih h.2

theorem lookupA_removeA_self {α : Type} (m : List (Nat × α)) (k : Nat)
    (h : (m.map Prod.fst).Nodup) : lookupA (removeA m k).1 k = Option.none := by
  induction m with
  | nil => rfl
  | cons hd tl ih =>
    rcases hd with ⟨k', v'⟩
    simp only [List.map_cons, List.nodup_cons] at h
    by_cases hk : k' = k
    · subst hk
      simp only [removeA, if_pos rfl]
      exact lookupA_eq_none_of_not_mem tl k' h.1
    · simp only [removeA, if_neg hk, lookupA]
      exact ih h.2

theorem removeA_eq_of_lookup_none {α : Type} (m : List (Nat × α)) (k : Nat)
    (h : lookupA m k = Option.none) : removeA m k = (m, Option.none) := by
  induction m with
  | nil => rfl
  | cons hd tl ih =>
    rcases hd with ⟨k', v'⟩
    by_cases hk : k' = k
    · simp [lookupA, hk] at h
    · simp only [lookupA, if_neg hk] at h
      simp [removeA, if_neg hk, ih h]

/-- The source's drain loop computes exactly the loop the specification
describes. -/
theorem drain_loop_eq_spec (key : Nat) (rs : List DequeueResponse) :
    ∀ posted, drain_loop key rs posted = spec_drain_until_remove key rs posted := by
  induction rs with
  | nil => intro posted; rfl
  | cons r rest ih =>
    intro posted
    simp only [drain_loop, spec_drain_until_remove, ERROR_SUCCESS, WAIT_TIMEOUT,
      SOCK_NOTIFY_EVENT_REMOVE, ne_eq]
    split_ifs <;> first | rfl | (exact ih _) | omega

/-- Unfolding the spec loop on an entry delivered with status
`ERROR_SUCCESS`. -/
theorem spec_drain_cons_success (key : Nat) (e : OverlappedEntry)
    (rest : List DequeueResponse) (posted : List OverlappedEntry) :
    spec_drain_until_remove key ({ res := ERROR_SUCCESS, entry := e } :: rest) posted =
      if e.lpCompletionKey = key then
        if e.dwNumberOfBytesTransferred &&& SOCK_NOTIFY_EVENT_REMOVE ≠ 0 then
          Option.some (Except.ok (), posted)
        else spec_drain_until_remove key rest posted
      else spec_drain_until_remove key rest (posted ++ [e]) := by
  simp only [spec_drain_until_remove]
  rw [if_neg (show ¬(ERROR_SUCCESS = WAIT_TIMEOUT) from by decide),
      if_neg (show ¬(ERROR_SUCCESS ≠ ERROR_SUCCESS) from by decide)]
  by_cases hkey : e.lpCompletionKey = key
  · rw [if_neg (not_not_intro hkey), if_pos hkey]
    by_cases hbit : e.dwNumberOfBytesTransferred &&& SOCK_NOTIFY_EVENT_REMOVE ≠ 0
    · rw [if_neg hbit, if_pos hbit]
    · rw [if_pos (not_not.mp hbit), if_neg hbit]
  · rw [if_pos hkey, if_neg hkey]

/-! ## Claim theorems -/

/-- C1.  Remove-and-drain protocol: `Poller::update_and_wait_for_remove`
for target key `k` computes, for every kernel-response sequence, exactly
the protocol the specification states — it consumes completion entries
until one carries completion-key `k` with the REMOVE bit in its
bytes-transferred field and only then returns success; every dequeued
entry with a different completion-key is reposted with the exact same
`(bytesTransferred, completionKey, overlapped)` triple; an entry with key
`k` but no REMOVE bit is discarded; a `WAIT_TIMEOUT` status keeps the loop
waiting; a non-success per-registration status is surfaced as the error
after reposting the entry returned alongside it; any call-level status
outside {SUCCESS, TIMEOUT} is surfaced as the error. -/
theorem update_and_wait_for_remove_follows_spec (key : Nat)
    (first : DrainFirstResponse) (rest : List DequeueResponse) :
    update_and_wait_for_remove key first rest = spec_remove_and_drain key first rest := by
  unfold update_and_wait_for_remove spec_remove_and_drain
  by_cases hres : first.res = ERROR_SUCCESS ∨ first.res = WAIT_TIMEOUT
  · rw [if_pos hres, if_neg (by tauto : ¬(first.res ≠ ERROR_SUCCESS ∧ first.res ≠ WAIT_TIMEOUT))]
    by_cases hreg : first.registrationResult ≠ ERROR_SUCCESS
    · rw [if_pos hreg, if_pos hreg]
    · rw [if_neg hreg, if_neg hreg]
      by_cases hrecv : first.received = 1
      · rw [if_pos hrecv, if_pos hrecv, List.singleton_append, spec_drain_cons_success]
        by_cases hkey : first.entry.lpCompletionKey = key
        · rw [if_pos hkey, if_pos hkey]
          by_cases hbit :
              first.entry.dwNumberOfBytesTransferred &&& SOCK_NOTIFY_EVENT_REMOVE ≠ 0
          · rw [if_pos hbit, if_pos hbit]
          · rw [if_neg hbit, if_neg hbit, drain_loop_eq_spec]
        · rw [if_neg hkey, if_neg hkey, drain_loop_eq_spec, List.nil_append]
      · rw [if_neg hrecv, if_neg hrecv, List.nil_append, drain_loop_eq_spec]
  · rw [if_neg hres, if_pos (by tauto : first.res ≠ ERROR_SUCCESS ∧ first.res ≠ WAIT_TIMEOUT)]

/-- C2.  `Poller::wait` returns `Ok` with the dequeued completion count when
the underlying dequeue call reports `ERROR_SUCCESS`, returns `Ok 0` when it
reports `WAIT_TIMEOUT` or `WAIT_IO_COMPLETION` (user-APC interruption of an
alertable wait), and surfaces any other status as an error carrying the
thread's Win32 last-error code; zero is an ordinary `Ok` value, for every
timeout and alertable flag. -/
theorem wait_status_mapping (timeout : Option Duration) (alertable : Bool)
    (resp : GQCSResponse) :
    (resp.res = ERROR_SUCCESS →
      (Poller.wait timeout alertable resp).1 = Except.ok resp.received)
    ∧ (resp.res = WAIT_TIMEOUT ∨ resp.res = WAIT_IO_COMPLETION →
      (Poller.wait timeout alertable resp).1 = Except.ok 0)
    ∧ (resp.res ≠ ERROR_SUCCESS → resp.res ≠ WAIT_TIMEOUT → resp.res ≠ WAIT_IO_COMPLETION →
      (Poller.wait timeout alertable resp).1 =
        Except.error (PollError.osError resp.lastError)) := by
  refine ⟨?_, ?_, ?_⟩
  · intro h
    simp [Poller.wait, h]
  · intro h
    rcases h with h | h <;>
      simp [Poller.wait, h, ERROR_SUCCESS, WAIT_TIMEOUT, WAIT_IO_COMPLETION]
  · intro h1 h2 h3
    simp [Poller.wait, h1, h2, h3]

/-- Witness for C2 at a concrete kernel response. -/
theorem wait_status_mapping_witness :
    (Poller.wait Option.none false ⟨0, 3, 5⟩).1 = Except.ok 3 :=
  (wait_status_mapping Option.none false ⟨0, 3, 5⟩).1 rfl

/-- C5.  Round-trip through `Poller::post`: for an `Event` whose mask is any
combination of the readiness bits (IN, OUT, HANGUP, ERR), `post` enqueues
exactly one completion entry whose bytes-transferred field carries
`e.events`, whose completion-key carries `e.key` and whose overlapped
pointer is null, and reinterpreting that entry as an `Event`
(`From<OVERLAPPED_ENTRY>`) yields the same `(events, key)` pair. -/
theorem post_roundtrip (r w hu er : Bool) (key ev : Nat)
    (queue : List OverlappedEntry)
    (hev : ev = (cond r SOCK_NOTIFY_EVENT_IN 0) ||| (cond w SOCK_NOTIFY_EVENT_OUT 0) |||
      (cond hu SOCK_NOTIFY_EVENT_HANGUP 0) ||| (cond er SOCK_NOTIFY_EVENT_ERR 0)) :
    Poller.post queue ⟨ev, key⟩ = queue ++ [(⟨ev, key, 0⟩ : OverlappedEntry)]
    ∧ Event.ofEntry (⟨ev, key, 0⟩ : OverlappedEntry) = (⟨ev, key⟩ : Event) := by
  subst hev
  cases r <;> cases w <;> cases hu <;> cases er <;>
    refine ⟨?_, rfl⟩ <;>
      simp [Poller.post, Poller.post_raw, interest_to_events, Event.is_readable,
        Event.is_writable, Event.is_hangup, Event.is_error, Event.get_event,
        SOCK_NOTIFY_EVENT_IN, SOCK_NOTIFY_EVENT_OUT, SOCK_NOTIFY_EVENT_HANGUP,
        SOCK_NOTIFY_EVENT_ERR] <;> decide

/-- Witness for C5 with all four readiness bits set and key 114514. -/
theorem post_roundtrip_witness :
    Poller.post [] ⟨71, 114514⟩ = [(⟨71, 114514, 0⟩ : OverlappedEntry)]
    ∧ Event.ofEntry (⟨71, 114514, 0⟩ : OverlappedEntry) = (⟨71, 114514⟩ : Event) :=
  post_roundtrip true true true true 114514 71 [] (by decide)

/-- C6.  The `SOCK_NOTIFY_REGISTRATION` descriptor built by
`create_registration` has completion-key `interest.key`; an event filter
holding exactly the IN/OUT/HANGUP bits of `interest.events` (error is not
part of the filter); trigger flags ONESHOT∪LEVEL for `Oneshot`,
PERSISTENT∪LEVEL for `Level`, PERSISTENT∪EDGE for `Edge` and ONESHOT∪EDGE
for `EdgeOneshot`; and operation code ENABLE when some IN/OUT/HANGUP
interest bit is set, DISABLE when the filter is empty, and REMOVE when the
registration is being removed. -/
theorem create_registration_descriptor (socket : Nat) (interest : Event)
    (mode : PollMode) (enable : Bool) :
    (create_registration socket interest mode enable).socket = socket
    ∧ (create_registration socket interest mode enable).completionKey = interest.key
    ∧ (create_registration socket interest mode enable).eventFilter = interest.events &&& 7
    ∧ (create_registration socket interest mode enable).triggerFlags =
        (match mode with
          | PollMode.Oneshot => SOCK_NOTIFY_TRIGGER_ONESHOT ||| SOCK_NOTIFY_TRIGGER_LEVEL
          | PollMode.Level => SOCK_NOTIFY_TRIGGER_PERSISTENT ||| SOCK_NOTIFY_TRIGGER_LEVEL
          | PollMode.Edge => SOCK_NOTIFY_TRIGGER_PERSISTENT ||| SOCK_NOTIFY_TRIGGER_EDGE
          | PollMode.EdgeOneshot => SOCK_NOTIFY_TRIGGER_ONESHOT ||| SOCK_NOTIFY_TRIGGER_EDGE)
    ∧ (create_registration socket interest mode enable).operation =
        (if enable then
          if interest.events &&& 7 = 0 then SOCK_NOTIFY_OP_DISABLE else SOCK_NOTIFY_OP_ENABLE
         else SOCK_NOTIFY_OP_REMOVE) := by
  refine ⟨rfl, rfl, interest_to_filter_eq interest, by cases mode <;> rfl, ?_⟩
  have hf := interest_to_filter_eq interest
  simp only [create_registration, SOCK_NOTIFY_REGISTER_EVENT_NONE, hf]

/-- C7.  `is_socket` classifies a handle as a socket iff the
`WSAGetQOSByName` probe returned nonzero or the thread's last WSA error is
not `WSAENOTSOCK`; since the probe (called with null arguments) always
fails, this means: socket iff the last error is not `WSAENOTSOCK`; and
`epoll_ctl` takes the socket dispatch path exactly when `is_socket` returns
true, the waitable path otherwise. -/
theorem is_socket_classification (probe : WSAProbe) :
    (is_socket probe = true ↔ (probe.res ≠ 0 ∨ probe.lastError ≠ WSAENOTSOCK))
    ∧ (probe.res = 0 → (is_socket probe = true ↔ probe.lastError ≠ WSAENOTSOCK))
    ∧ (∀ op handle event, ((epoll_ctl probe op handle event).1 = CtlPath.socketPath ↔
        is_socket probe = true)
      ∧ ((epoll_ctl probe op handle event).1 = CtlPath.waitablePath ↔
        ¬ is_socket probe = true)) := by
  refine ⟨?_, ?_, ?_⟩
  · simp [is_socket, Bool.or_eq_true, bne_iff_ne]
  · intro h
    simp [is_socket, h, bne_iff_ne]
  · intro op handle event
    by_cases hs : is_socket probe <;> simp [epoll_ctl, hs]

/-- Witness for C7: a failed probe with last error `WSAEFAULT` (10014) is a
socket; with `WSAENOTSOCK` the waitable path is taken. -/
theorem is_socket_classification_witness :
    is_socket ⟨0, 10014⟩ = true
    ∧ (epoll_ctl ⟨0, 10038⟩ 3 7 Option.none).1 = CtlPath.waitablePath :=
  ⟨((is_socket_classification ⟨0, 10014⟩).2.1 rfl).mpr (by decide),
   ((is_socket_classification ⟨0, 10038⟩).2.2 3 7 Option.none).2.mpr (by decide)⟩

/-- C8.  Timeout conversion: `dur2timeout` yields the total millisecond
count of the duration rounded up to the next millisecond whenever a
sub-millisecond remainder exists; any value exceeding the representable
`u32` range (including `u64` overflow inside the computation) saturates to
`INFINITE`; a zero duration converts to `0`; and `Poller::wait` maps an
absent timeout to `INFINITE`. -/
theorem dur2timeout_conversion :
    (∀ secs nanos, dur2timeout ⟨secs, nanos⟩ =
      if secs * 1000 + nanos / 1000000 + (if nanos % 1000000 > 0 then 1 else 0) < 2 ^ 32
      then secs * 1000 + nanos / 1000000 + (if nanos % 1000000 > 0 then 1 else 0)
      else INFINITE)
    ∧ dur2timeout ⟨0, 0⟩ = 0
    ∧ wait_timeout_arg Option.none = INFINITE
    ∧ (∀ d, wait_timeout_arg (Option.some d) = dur2timeout d) := by
  refine ⟨?_, by decide, rfl, fun d => rfl⟩
  intro secs nanos
  simp only [dur2timeout, u64_checked_mul, u64_checked_add, u32_try_from]
  by_cases h1 : secs * 1000 < 2 ^ 64
  · rw [if_pos h1, Option.some_bind]
    by_cases h2 : secs * 1000 + nanos / 1000000 < 2 ^ 64
    · rw [if_pos h2, Option.some_bind]
      by_cases h3 : nanos % 1000000 > 0
      · rw [if_pos h3]
        by_cases h4 : secs * 1000 + nanos / 1000000 + 1 < 2 ^ 64
        · rw [if_pos h4, Option.some_bind]
          by_cases h5 : secs * 1000 + nanos / 1000000 + 1 < 2 ^ 32
          · rw [if_pos h5, Option.getD_some]
            rw [if_pos h3, if_pos (by omega)]
          · rw [if_neg h5, Option.getD_none]
            rw [if_pos h3, if_neg (by omega)]
        · rw [if_neg h4, Option.none_bind, Option.getD_none]
          rw [if_pos h3, if_neg (by omega)]
      · rw [if_neg h3, Option.some_bind]
        by_cases h5 : secs * 1000 + nanos / 1000000 < 2 ^ 32
        · rw [if_pos h5, Option.getD_some]
          rw [if_neg h3, if_pos (by omega)]
          omega
        · rw [if_neg h5, Option.getD_none]
          rw [if_neg h3, if_neg (by omega)]
    · rw [if_neg h2, Option.none_bind, Option.none_bind, Option.getD_none]
      rw [if_neg (by omega)]
  · rw [if_neg h1, Option.none_bind, Option.none_bind, Option.none_bind, Option.getD_none]
    rw [if_neg (by omega)]

/-- C3.  `Poller::modify` on a socket stored with key `oldkey`: when
`oldkey ≠ interest.key` it first issues a REMOVE registration under
`oldkey` and synchronously drains its REMOVE completion via the
remove-and-drain protocol, and only when that drain succeeds does it
install the new registration under `interest.key`; when the keys agree it
issues the ENABLE/DISABLE registration directly with no drain; and when
the socket is not in `sources` it fails with `NotFound` without touching
the kernel. -/
theorem modify_key_change_protocol (st : PollerState) (socket : Nat)
    (interest : Event) (mode : PollMode) (df : DrainFirstResponse)
    (dr : List DequeueResponse) (ur : RegResponse) :
    (lookupA st.sources socket = Option.none →
      Poller.modify st socket interest mode df dr ur =
        Option.some (Except.error PollError.notFound, st, []))
    ∧ (∀ oldkey, lookupA st.sources socket = Option.some oldkey →
        oldkey ≠ interest.key →
        (create_registration socket (Event.none oldkey) PollMode.Oneshot false).operation =
            SOCK_NOTIFY_OP_REMOVE
        ∧ (create_registration socket (Event.none oldkey) PollMode.Oneshot false).completionKey =
            oldkey
        ∧ (create_registration socket interest mode true).completionKey = interest.key
        ∧ (update_and_wait_for_remove oldkey df dr = Option.none →
            Poller.modify st socket interest mode df dr ur = Option.none)
        ∧ (∀ c posted, update_and_wait_for_remove oldkey df dr =
              Option.some (Except.error c, posted) →
            Poller.modify st socket interest mode df dr ur =
              Option.some (Except.error (PollError.osError c), st,
                [KAction.drainRemove
                  (create_registration socket (Event.none oldkey) PollMode.Oneshot false)
                  oldkey]))
        ∧ (∀ posted, update_and_wait_for_remove oldkey df dr =
              Option.some (Except.ok (), posted) →
            Poller.modify st socket interest mode df dr ur =
              Option.some ((update_source ur).mapError PollError.osError, st,
                [KAction.drainRemove
                  (create_registration socket (Event.none oldkey) PollMode.Oneshot false)
                  oldkey,
                 KAction.updateSource (create_registration socket interest mode true)])))
    ∧ (∀ oldkey, lookupA st.sources socket = Option.some oldkey →
        oldkey = interest.key →
        Poller.modify st socket interest mode df dr ur =
          Option.some ((update_source ur).mapError PollError.osError, st,
            [KAction.updateSource (create_registration socket interest mode true)])) := by
  refine ⟨?_, ?_, ?_⟩
  · intro h
    simp [Poller.modify, h]
  · intro oldkey h hne
    refine ⟨rfl, rfl, rfl, ?_, ?_, ?_⟩
    · intro hd
      simp [Poller.modify, h, hne, hd]
    · intro c posted hd
      simp [Poller.modify, h, hne, hd]
    · intro posted hd
      simp [Poller.modify, h, hne, hd]
  · intro oldkey h heq
    subst heq
    simp [Poller.modify, h]

/-- Witness for C3 at a concrete state and kernel-response sequence: socket
5 stored under key 2, re-registered under key 3; the drain sees one
unrelated completion, then the REMOVE for key 2. -/
theorem modify_key_change_protocol_witness :
    Poller.modify ⟨[(5, 2)], []⟩ 5 ⟨1, 3⟩ PollMode.Level
        ⟨0, 0, 1, ⟨1, 9, 77⟩⟩ [⟨0, ⟨128, 2, 0⟩⟩] ⟨0, 0⟩ =
      Option.some (Except.ok (), ⟨[(5, 2)], []⟩,
        [KAction.drainRemove
          (create_registration 5 (Event.none 2) PollMode.Oneshot false) 2,
         KAction.updateSource (create_registration 5 ⟨1, 3⟩ PollMode.Level true)]) :=
  ((modify_key_change_protocol ⟨[(5, 2)], []⟩ 5 ⟨1, 3⟩ PollMode.Level
      ⟨0, 0, 1, ⟨1, 9, 77⟩⟩ [⟨0, ⟨128, 2, 0⟩⟩] ⟨0, 0⟩).2.1 2 rfl
    (by decide)).2.2.2.2.2 [⟨1, 9, 77⟩] rfl

/-- C9.  Idempotent delete: `Poller::delete` on a socket absent from
`sources` fails with `NotFound`, performs no kernel action and leaves the
registry untouched; and immediately after a successful `delete`, the
socket is absent, so a second `delete` fails exactly that way. -/
theorem delete_idempotent (st : PollerState) (socket : Nat)
    (df df' : DrainFirstResponse) (dr dr' : List DequeueResponse) :
    (lookupA st.sources socket = Option.none →
      Poller.delete st socket df dr =
        Option.some (Except.error PollError.notFound, st, []))
    ∧ ((st.sources.map Prod.fst).Nodup →
       ∀ st' tr, Poller.delete st socket df dr = Option.some (Except.ok (), st', tr) →
         lookupA st'.sources socket = Option.none
         ∧ Poller.delete st' socket df' dr' =
             Option.some (Except.error PollError.notFound, st', [])) := by
  constructor
  · intro h
    simp [Poller.delete, removeA_eq_of_lookup_none st.sources socket h]
  · intro hnodup st' tr hdel
    have habs : lookupA st'.sources socket = Option.none := by
      rcases hrem : (removeA st.sources socket).2 with _ | key
      · simp [Poller.delete, hrem] at hdel
      · rcases hu : update_and_wait_for_remove key df dr with _ | ⟨r, posted⟩
        · simp [Poller.delete, hrem, hu] at hdel
        · rcases r with c | u
          · simp [Poller.delete, hrem, hu, Except.mapError] at hdel
          · cases u
            simp only [Poller.delete, hrem, hu, Except.mapError] at hdel
            injection hdel with hdel
            have hst := congrArg (fun t : Except PollError Unit × PollerState × List KAction =>
              t.2.1.sources) hdel
            dsimp only at hst
            rw [← hst]
            exact lookupA_removeA_self st.sources socket hnodup
    refine ⟨habs, ?_⟩
    simp [Poller.delete, removeA_eq_of_lookup_none st'.sources socket habs]

/-- Witness for C9: deleting socket 5 from a registry holding only socket
5 succeeds (the drain sees the REMOVE at once), after which the socket is
absent and a second delete fails with `NotFound`, changing nothing and
issuing no kernel action. -/
theorem delete_idempotent_witness :
    lookupA (PollerState.sources ⟨[], []⟩) 5 = Option.none
    ∧ Poller.delete ⟨[], []⟩ 5 ⟨0, 0, 0, ⟨0, 0, 0⟩⟩ [] =
        Option.some (Except.error PollError.notFound, ⟨[], []⟩, []) :=
  (delete_idempotent ⟨[(5, 2)], []⟩ 5 ⟨0, 0, 1, ⟨128, 2, 0⟩⟩ ⟨0, 0, 0, ⟨0, 0, 0⟩⟩
      [] []).2 (by decide) ⟨[], []⟩
    [KAction.drainRemove (create_registration 5 (Event.none 2) PollMode.Oneshot false) 2]
    rfl

/-- C10.  `Poller::modify_waitable` on a handle stored with attribute
`attr` re-associates the (reused or freshly allocated) wait packet under
the stored key `attr.key`: every associate action it issues carries
`attr.key` and the interest bits of the argument; the key stored in
`waitables` for the handle is unchanged afterwards; and the key field of
the interest argument is ignored entirely. -/
theorem modify_waitable_keeps_stored_key (st : PollerState) (waitable : Nat)
    (interest : Event) (cancelRes : Except Nat Bool) (newPacket : Except Nat Nat)
    (assocRes : Except Nat Unit) (attr : WaitableAttr)
    (h : lookupA st.waitables waitable = Option.some attr) :
    (∀ pid hdl k info, KAction.associate pid hdl k info ∈
        (Poller.modify_waitable st waitable interest cancelRes newPacket assocRes).2.2 →
      k = attr.key ∧ hdl = waitable ∧ info = interest_to_events interest)
    ∧ (∀ attr', lookupA
        (Poller.modify_waitable st waitable interest cancelRes newPacket assocRes).2.1.waitables
          waitable = Option.some attr' → attr'.key = attr.key)
    ∧ (∀ k', Poller.modify_waitable st waitable ⟨interest.events, k'⟩ cancelRes
        newPacket assocRes =
        Poller.modify_waitable st waitable interest cancelRes newPacket assocRes) := by
  refine ⟨?_, ?_, ?_⟩
  · intro pid hdl k info hmem
    rcases cancelRes with c | cancelled
    · simp [Poller.modify_waitable, h] at hmem
    · rcases hnp : (if cancelled then Except.ok attr.packet else newPacket :
          Except Nat Nat) with c | npid
      · simp [Poller.modify_waitable, h, hnp] at hmem
      · rcases assocRes with c | u <;>
          · simp only [Poller.modify_waitable, h, hnp, List.mem_cons,
              List.mem_singleton] at hmem
            rcases hmem with hmem | hmem <;> simp_all
  · intro attr' h'
    rcases cancelRes with c | cancelled
    · simp only [Poller.modify_waitable, h] at h'
      exact congrArg WaitableAttr.key (Option.some.inj h').symm
    · rcases hnp : (if cancelled then Except.ok attr.packet else newPacket :
          Except Nat Nat) with c | npid
      · simp only [Poller.modify_waitable, h, hnp] at h'
        exact congrArg WaitableAttr.key (Option.some.inj h').symm
      · rcases assocRes with c | u <;>
          · simp only [Poller.modify_waitable, h, hnp] at h'
            rw [lookupA_insertA_self] at h'
            cases h'
            rfl
  · intro k'
    rfl

/-- Witness for C10: handle 3 was added under key 9; a modify with
interest key 55 still leaves the stored key at 9. -/
theorem modify_waitable_keeps_stored_key_witness :
    WaitableAttr.key ⟨9, 101⟩ = WaitableAttr.key ⟨9, 100⟩ :=
  (modify_waitable_keeps_stored_key ⟨[], [(3, ⟨9, 100⟩)]⟩ 3 ⟨1, 55⟩
    (Except.ok false) (Except.ok 101) (Except.ok ()) ⟨9, 100⟩ rfl).2.1 ⟨9, 101⟩ rfl

/-- Counterexample to C4 as stated: `Poller::add` on an empty registry for
socket 5 with a kernel registration failure (`registrationResult = 87`)
returns an error, yet `sources` is left holding the freshly inserted entry
`(5, 9)` — the error return does not restore the registry. -/
theorem add_failure_keeps_inserted_entry :
    (Poller.add ⟨[], []⟩ 5 ⟨1, 9⟩ PollMode.Level ⟨0, 87⟩).1 =
        Except.error (PollError.osError 87)
    ∧ (Poller.add ⟨[], []⟩ 5 ⟨1, 9⟩ PollMode.Level ⟨0, 87⟩).2.1 ≠
        (⟨[], []⟩ : PollerState)
    ∧ (Poller.add ⟨[], []⟩ 5 ⟨1, 9⟩ PollMode.Level ⟨0, 87⟩).2.1.sources = [(5, 9)] := by
  refine ⟨rfl, ?_, rfl⟩
  decide

/-- C4 (amended).  Per-operation registry-frame behavior: operations that
fail their map-level precondition (`AlreadyExists`, `NotFound`) leave both
maps unchanged and issue no kernel action; `modify`, `wait` and `post`
never change the maps; `add_waitable` changes them only on full success;
but `add` keeps the freshly inserted `sources` entry even when the kernel
registration step fails (the spec's no-rollback rule), `delete` removes
its `sources` entry before draining, whatever the drain's outcome, and
`modify_waitable` that had to install a fresh packet keeps the new packet
in the map (stored key unchanged) when the re-association fails. -/
theorem poller_registry_frame (st : PollerState) (socket handle : Nat)
    (interest : Event) (mode : PollMode) (r : RegResponse)
    (df : DrainFirstResponse) (dr : List DequeueResponse)
    (np : Except Nat Nat) (ar : Except Nat Unit) (cr : Except Nat Bool) :
    (containsA st.sources socket = true →
      Poller.add st socket interest mode r = (Except.error PollError.alreadyExists, st, []))
    ∧ (containsA st.sources socket = false →
        (Poller.add st socket interest mode r).2.1 =
          { st with sources := insertA st.sources socket interest.key })
    ∧ (∀ out, Poller.modify st socket interest mode df dr r = Option.some out →
        out.2.1 = st)
    ∧ (lookupA st.sources socket = Option.none →
        Poller.delete st socket df dr =
          Option.some (Except.error PollError.notFound, st, []))
    ∧ (∀ key, (removeA st.sources socket).2 = Option.some key →
        ∀ out, Poller.delete st socket df dr = Option.some out →
          out.2.1.sources = (removeA st.sources socket).1)
    ∧ (∀ res st' tr, Poller.add_waitable st handle interest np ar = (res, st', tr) →
        res ≠ Except.ok () → st' = st)
    ∧ (∀ attr pid c, lookupA st.waitables handle = Option.some attr →
        cr = Except.ok false → np = Except.ok pid → ar = Except.error c →
        Poller.modify_waitable st handle interest cr np ar =
          (Except.error (PollError.osError c),
           { st with waitables := insertA st.waitables handle ⟨attr.key, pid⟩ },
           [KAction.cancelPacket attr.packet,
            KAction.associate pid handle attr.key (interest_to_events interest)]))
    ∧ (∀ attr, (removeA st.waitables handle).2 = Option.some attr →
        (Poller.delete_waitable st handle cr).2.1.waitables =
          (removeA st.waitables handle).1) := by
  refine ⟨?_, ?_, ?_, ?_, ?_, ?_, ?_, ?_⟩
  · intro h
    simp [Poller.add, h]
  · intro h
    simp only [Poller.add, h, Bool.false_eq_true, if_false]
  · intro out hout
    rcases hl : lookupA st.sources socket with _ | oldkey
    · simp only [Poller.modify, hl, Option.some.injEq] at hout
      rw [← hout]
    · by_cases hk : oldkey ≠ interest.key
      · rcases hu : update_and_wait_for_remove oldkey df dr with _ | ⟨res, posted⟩
        · simp [Poller.modify, hl, hk, hu] at hout
        · rcases res with c | u
          · simp only [Poller.modify, hl, hu] at hout
            rw [if_pos hk] at hout
            rw [← Option.some.inj hout]
          · simp only [Poller.modify, hl, hu] at hout
            rw [if_pos hk] at hout
            rw [← Option.some.inj hout]
      · simp only [Poller.modify, hl, hk, if_false, Option.some.injEq] at hout
        rw [← hout]
  · intro h
    simp [Poller.delete, removeA_eq_of_lookup_none st.sources socket h]
  · intro key hrem out hout
    rcases hu : update_and_wait_for_remove key df dr with _ | ⟨res, posted⟩
    · simp [Poller.delete, hrem, hu] at hout
    · simp only [Poller.delete, hrem, hu, Option.some.injEq] at hout
      rw [← hout]
  · intro res st' tr hout hres
    rcases hc : containsA st.waitables handle with _ | _
    · rcases np with c | pid
      · simp only [Poller.add_waitable, hc, Bool.false_eq_true, if_false] at hout
        exact (congrArg (fun t => t.2.1) hout).symm
      · rcases ar with c | u
        · simp only [Poller.add_waitable, hc, Bool.false_eq_true, if_false] at hout
          exact (congrArg (fun t => t.2.1) hout).symm
        · simp only [Poller.add_waitable, hc, Bool.false_eq_true, if_false] at hout
          exact absurd (congrArg (fun t => t.1) hout).symm hres
    · simp only [Poller.add_waitable, hc, if_true] at hout
      exact (congrArg (fun t => t.2.1) hout).symm
  · intro attr pid c hl hcr hnp har
    subst hcr hnp har
    simp [Poller.modify_waitable, hl]
  · intro attr hrem
    rcases cr with c | b <;> simp [Poller.delete_waitable, hrem]

/-- Witness for the amended C4: a duplicate add leaves the registry and
trace empty of effects, and an add whose kernel registration fails with 87
still leaves `(5, 9)` in `sources`. -/
theorem poller_registry_frame_witness :
    Poller.add ⟨[(5, 9)], []⟩ 5 ⟨1, 9⟩ PollMode.Level ⟨0, 0⟩ =
        (Except.error PollError.alreadyExists, ⟨[(5, 9)], []⟩, [])
    ∧ (Poller.add ⟨[], []⟩ 5 ⟨1, 9⟩ PollMode.Level ⟨0, 87⟩).2.1 =
        (⟨[(5, 9)], []⟩ : PollerState) :=
  ⟨(poller_registry_frame ⟨[(5, 9)], []⟩ 5 0 ⟨1, 9⟩ PollMode.Level ⟨0, 0⟩
      ⟨0, 0, 0, ⟨0, 0, 0⟩⟩ [] (Except.ok 0) (Except.ok ()) (Except.ok true)).1 rfl,
   (poller_registry_frame ⟨[], []⟩ 5 0 ⟨1, 9⟩ PollMode.Level ⟨0, 87⟩
      ⟨0, 0, 0, ⟨0, 0, 0⟩⟩ [] (Except.ok 0) (Except.ok ()) (Except.ok true)).2.1 rfl⟩

end Wepoll
